import Mathlib

/-!
Verification of the iMessageAnalyzer extraction-and-aggregation pipeline.

The Python sources (script.py, app.py) are shallowly embedded below:
pure helpers become Lean functions over String / List Char, the two-pass
mutable-dictionary accumulators of the group-chat analyzer become folds over
function-valued states, SQLite rows become structures, and raised exceptions
become an explicit error type carried in Except.  Python string operations
(split, lower, strip) are modelled by structurally recursive List Char
functions with ASCII semantics, so every definition evaluates inside the
kernel.  Machine floats only occur in the average-messages-per-day division;
that division is modelled over the rationals.  The calendar rendering of
format_date depends on the host timezone (datetime.fromtimestamp), so the
date-formatting function is a parameter of the conversation compiler; no
claim depends on its output.
-/

/-- Embedding of script.py normalize_phone_number (lines 107-116): a null
input maps to the literal string Unknown; otherwise every non-digit character
is removed and, when the result is exactly 11 digits starting with 1, the
leading digit is dropped. -/
def normalize_phone_number : Option String → String
  | none => "Unknown"
  | some p =>
    let digits := p.data.filter Char.isDigit
    if digits.length = 11 ∧ digits.head? = some '1' then String.mk (digits.drop 1)
    else String.mk digits

/-- Model of the Python str.lower call (ASCII semantics). -/
def pyLower (s : String) : String := String.mk (s.data.map Char.toLower)

/-- The key under which get_contacts (script.py lines 154-157) registers a
contact: values containing an at sign are lowercased, all other values go
through normalize_phone_number. -/
def contactKey (value : String) : String :=
  if value.data.contains '@' then pyLower value else normalize_phone_number (some value)

/-- Model of the Python str.split() tokenizer: splits on runs of whitespace
and never produces empty tokens.  The accumulator holds the current token in
reverse. -/
def splitWsAux : List Char → List Char → List (List Char)
  | [], acc => if acc = [] then [] else [acc.reverse]
  | c :: rest, acc =>
    if c.isWhitespace then
      if acc = [] then splitWsAux rest [] else acc.reverse :: splitWsAux rest []
    else splitWsAux rest (c :: acc)

/-- Python str.split() on a String. -/
def pySplit (s : String) : List String := (splitWsAux s.data []).map String.mk

/-- Embedding of script.py clean_contact_name (lines 167-169): drops every
whitespace-delimited token equal, case-insensitively, to the word none and
rejoins with single spaces.  Note that it returns the empty string, not
Unknown, when every token is dropped. -/
def clean_contact_name (name : String) : String :=
  String.intercalate " " ((pySplit name).filter (fun p => pyLower p ≠ "none"))

/-- Embedding of the name cleaning performed in app.py
App.save_results_to_local_db (lines 965-967): like clean_contact_name but
falling back to the literal Unknown when every token is dropped. -/
def cleanNameApp (name : String) : String :=
  let kept := (pySplit name).filter (fun p => pyLower p ≠ "none")
  if kept.isEmpty then "Unknown" else String.intercalate " " kept

/-- Model of the Python helper dropping leading whitespace (one side of
str.strip). -/
def stripLeading : List Char → List Char
  | [] => []
  | c :: rest => if c.isWhitespace then stripLeading rest else c :: rest

/-- Model of Python str.strip(). -/
def pyStrip (s : String) : String :=
  String.mk ((stripLeading (stripLeading s.data).reverse).reverse)

/-- Model of the Python f-string conversion of a possibly-null database
field: None prints as the literal word None. -/
def pyStr : Option String → String
  | none => "None"
  | some s => s

/-- Truthiness of an optional blob in Python: None and the empty value are
falsy. -/
def optTruthy : Option String → Bool
  | none => false
  | some s => !(s == "")

/-- One row of the ABPerson join consumed by get_contacts (script.py
line 149). -/
structure ContactRow where
  row_id : Nat
  firstName : Option String
  lastName : Option String
  value : String
  image_data : Option String
deriving DecidableEq

/-- The value stored per normalized key by get_contacts. -/
structure ContactInfo where
  name : String
  image_data : Option String
deriving DecidableEq

/-- One iteration of the get_contacts loop (script.py lines 148-163): the
display name is the stripped concatenation of first and last (falling back to
Unknown), the key is contactKey of the raw value, and an existing entry is
replaced only when the new row brings avatar data and the stored entry has
none. -/
def getContactsStep (dict : String → Option ContactInfo) (row : ContactRow) :
    String → Option ContactInfo :=
  let fn := pyStrip (pyStr row.firstName ++ " " ++ pyStr row.lastName)
  let full_name := if fn = "" then "Unknown" else fn
  let key := contactKey row.value
  match dict key with
  | none => fun q => if q = key then some ⟨full_name, row.image_data⟩ else dict q
  | some existing =>
      if optTruthy row.image_data && !(optTruthy existing.image_data) then
        fun q => if q = key then some ⟨full_name, row.image_data⟩ else dict q
      else dict

/-- Embedding of script.py get_contacts (lines 118-165), starting from the
empty dictionary. -/
def get_contacts (rows : List ContactRow) : String → Option ContactInfo :=
  rows.foldl getContactsStep (fun _ => none)

/-- Embedding of script.py TAPBACK_MAPPING (lines 253-261). -/
def TAPBACK_MAPPING : List (Int × String) :=
  [(0, "No Tapback"),
   (2000, "❤️ Heart"),
   (2001, "👍 Thumbs Up"),
   (2002, "👎 Thumbs Down"),
   (2003, "😂 Laugh"),
   (2004, "!! Exclamation"),
   (3003, "❓ Question")]

/-- Embedding of script.py clean_guid (lines 263-266): when the guid contains
a slash, keep only the part after the last slash (Python split on slash,
index -1); a null guid stays null. -/
def clean_guid : Option String → Option String
  | none => none
  | some g =>
    if g.data.contains '/' then
      some (String.mk ((g.data.reverse.takeWhile (fun c => !(c == '/'))).reverse))
    else some g

/-- One row of the message query in analyze_single_group_chat (script.py
lines 275-290). -/
structure MessageRow where
  rowid : Nat
  guid : Option String
  text : Option String
  handle_id : Nat
  is_from_me : Bool
  associated_message_guid : Option String
  associated_message_type : Option Int
  date : Int
  sender_id : Option String
deriving DecidableEq

/-- The sender tag computed in both passes (script.py lines 307 and 315):
self becomes the tag user, a null or empty handle becomes unknown. -/
def senderOf (m : MessageRow) : String :=
  if m.is_from_me then "user"
  else match m.sender_id with
    | none => "unknown"
    | some s => if s = "" then "unknown" else s

/-- The per-participant counters of analyze_single_group_chat (script.py
lines 296-300); the defaultdicts become total functions that are zero
everywhere initially. -/
@[ext] structure PStats where
  message_count : Nat
  tapbacks_sent : Int → Nat
  tapbacks_received : Int → Nat

/-- The initial all-zero participant statistics. -/
def initStats : String → PStats := fun _ => ⟨0, fun _ => 0, fun _ => 0⟩

/-- Increment the message counter of one participant. -/
def bumpCount (p0 : String) (st : String → PStats) : String → PStats :=
  fun q =>
    if q = p0 then
      { st q with message_count := (st q).message_count + 1 }
    else st q

/-- Increment the tapbacks-sent counter of one participant at one reaction
type. -/
def bumpSent (p0 : String) (t0 : Int) (st : String → PStats) : String → PStats :=
  fun q =>
    if q = p0 then
      { st q with tapbacks_sent :=
          fun u => if u = t0 then (st q).tapbacks_sent u + 1 else (st q).tapbacks_sent u }
    else st q

/-- Increment the tapbacks-received counter of one participant at one
reaction type. -/
def bumpRecv (p0 : String) (t0 : Int) (st : String → PStats) : String → PStats :=
  fun q =>
    if q = p0 then
      { st q with tapbacks_received :=
          fun u => if u = t0 then (st q).tapbacks_received u + 1 else (st q).tapbacks_received u }
    else st q

/-- Dictionary assignment for the guid-to-sender map built in pass 1; keys
are cleaned guids, which may be null. -/
def insertGuid (mp : Option String → Option String) (k : Option String) (v : String) :
    Option String → Option String :=
  fun q => if q = k then some v else mp q

/-- One iteration of pass 1 of analyze_single_group_chat (script.py
lines 303-309): count the message for its sender and register the cleaned
guid-to-sender mapping. -/
def pass1Step (acc : (String → PStats) × (Option String → Option String)) (m : MessageRow) :
    (String → PStats) × (Option String → Option String) :=
  (bumpCount (senderOf m) acc.1, insertGuid acc.2 (clean_guid m.guid) (senderOf m))

/-- Pass 1 over the full message list. -/
def pass1 (msgs : List MessageRow) :
    (String → PStats) × (Option String → Option String) :=
  msgs.foldl pass1Step (initStats, fun _ => none)

/-- One iteration of pass 2 of analyze_single_group_chat (script.py
lines 311-325).  Python truthiness of the reaction-type code means both a
null code and the code 0 leave the state untouched; otherwise the sender's
sent counter is incremented and, when the cleaned associated guid is found in
the pass-1 map, the original sender's received counter as well, else the
message is skipped (the code logs a recoverable warning). -/
def pass2Step (mts : Option String → Option String) (st : String → PStats) (m : MessageRow) :
    String → PStats :=
  match m.associated_message_type with
  | none => st
  | some ty =>
    if ty = 0 then st
    else
      match mts (clean_guid m.associated_message_guid) with
      | some orig => bumpRecv orig ty (bumpSent (senderOf m) ty st)
      | none => bumpSent (senderOf m) ty st

/-- Pass 2 over a message list, given the completed pass-1 map. -/
def pass2 (mts : Option String → Option String) (st : String → PStats)
    (msgs : List MessageRow) : String → PStats :=
  msgs.foldl (pass2Step mts) st

/-- The participant statistics computed by analyze_single_group_chat: pass 1
over the whole list, then pass 2 over the same list using the completed
guid map. -/
def analyzeStats (msgs : List MessageRow) : String → PStats :=
  pass2 (pass1 msgs).2 (pass1 msgs).1 msgs

/-- The contribution of one message to a tapbacks-sent counter in pass 2. -/
def sentD (m : MessageRow) (p : String) (t : Int) : Nat :=
  match m.associated_message_type with
  | none => 0
  | some ty => if ty = 0 then 0 else if p = senderOf m ∧ t = ty then 1 else 0

/-- The contribution of one message to a tapbacks-received counter in
pass 2, given the pass-1 map. -/
def recvD (mts : Option String → Option String) (m : MessageRow) (p : String) (t : Int) : Nat :=
  match m.associated_message_type with
  | none => 0
  | some ty =>
    if ty = 0 then 0
    else
      match mts (clean_guid m.associated_message_guid) with
      | some orig => if p = orig ∧ t = ty then 1 else 0
      | none => 0

/-- One conversation record as produced by get_all_conversations (script.py
lines 472-483) and consumed by App.save_results_to_local_db. -/
structure Conv where
  contact_name : String
  sent_count : Nat
  received_count : Nat
  first_message_date : String
  last_message_date : String
  avg_messages_per_day : ℚ
  images_sent : Nat
  images_received : Nat
  total_image_size : Nat
  image_data : Option String
deriving DecidableEq

/-- The in-place merge of app.py App.save_results_to_local_db
(lines 972-978): the five numeric counters are summed onto the stored record,
the first date becomes the Python min and the last date the Python max of the
two stored strings (lexicographic order on the formatted date strings, which
is what the code computes). -/
def mergeConv (a b : Conv) : Conv :=
  { a with
    sent_count := a.sent_count + b.sent_count,
    received_count := a.received_count + b.received_count,
    images_sent := a.images_sent + b.images_sent,
    images_received := a.images_received + b.images_received,
    total_image_size := a.total_image_size + b.total_image_size,
    first_message_date := min a.first_message_date b.first_message_date,
    last_message_date := max a.last_message_date b.last_message_date }

/-- One iteration of the aggregation loop of App.save_results_to_local_db
(app.py lines 963-978): the record is keyed by its cleaned contact name;
a first occurrence is stored with the cleaned name, a collision is merged. -/
def contactDataStep (acc : String → Option Conv) (conv : Conv) : String → Option Conv :=
  let name := cleanNameApp conv.contact_name
  fun k =>
    if k = name then
      match acc name with
      | none => some { conv with contact_name := name }
      | some existing => some (mergeConv existing conv)
    else acc k

/-- The keyed store built by App.save_results_to_local_db before insertion
into the local database. -/
def contactData (convs : List Conv) : String → Option Conv :=
  convs.foldl contactDataStep (fun _ => none)

/-- One row of the analyze_imessage_data aggregate (script.py
lines 359-369): per handle, sent and received counts and the minimum and
maximum Apple-epoch timestamps in nanoseconds. -/
structure ConvRow where
  identifier : String
  sent_count : Nat
  received_count : Nat
  first_message : Int
  last_message : Int
deriving DecidableEq

/-- Per-identifier image statistics from analyze_image_attachments. -/
structure ImgStats where
  sent : Nat
  received : Nat
  total_size : Nat
deriving DecidableEq

/-- Nanoseconds per day. -/
def nsPerDay : Int := 86400 * 1000000000

/-- The whole-day difference computed in get_all_conversations (script.py
lines 463-465) from the two datetime values: the floor of the timestamp
difference in days (Python timedelta normalization), modelled with a fixed
local-time offset. -/
def days_between (first last : Int) : Int := (last - first).fdiv nsPerDay

/-- Embedding of the record construction of get_all_conversations (script.py
lines 455-483) for one aggregate row.  The date-formatting function fmt
stands for format_date, whose rendering depends on the host timezone. -/
def conversationEntry (contacts : String → Option ContactInfo)
    (image_stats : String → Option ImgStats) (fmt : Option Int → String)
    (row : ConvRow) : Conv :=
  let contact_info := (contacts (normalize_phone_number (some row.identifier))).getD
    ⟨"Unknown", none⟩
  let days_diff : Int := days_between row.first_message row.last_message + 1
  let total : Nat := row.sent_count + row.received_count
  let avg : ℚ := if 0 < days_diff then (total : ℚ) / (days_diff : ℚ) else 0
  let istats := (image_stats row.identifier).getD ⟨0, 0, 0⟩
  { contact_name := contact_info.name,
    sent_count := row.sent_count,
    received_count := row.received_count,
    first_message_date := fmt (some row.first_message),
    last_message_date := fmt (some row.last_message),
    avg_messages_per_day := avg,
    images_sent := istats.sent,
    images_received := istats.received,
    total_image_size := istats.total_size,
    image_data := contact_info.image_data }

/-- Embedding of script.py get_all_conversations (lines 453-485): build one
record per aggregate row and stably sort descending by total message
count. -/
def get_all_conversations (conversations : List ConvRow)
    (contacts : String → Option ContactInfo) (image_stats : String → Option ImgStats)
    (fmt : Option Int → String) : List Conv :=
  (conversations.map (conversationEntry contacts image_stats fmt)).mergeSort
    (fun a b => b.sent_count + b.received_count ≤ a.sent_count + a.received_count)

/-- The table names probed by get_file_paths (script.py line 69), in probe
order. -/
def manifestTableNames : List String := ["Files", "files", "File", "file"]

/-- One row of the manifest Files table. -/
structure FileRow where
  fileID : String
  relativePath : Option String
  domain : String
deriving DecidableEq

/-- The manifest database: its tables in sqlite_master order, each with its
rows. -/
abbrev ManifestDb := List (String × List FileRow)

/-- The table names present in the manifest database. -/
def tablesOf (db : ManifestDb) : List String := db.map Prod.fst

/-- The probe loop of get_file_paths (script.py lines 72-76): the first of
the four known table names that exists wins. -/
def found_table (db : ManifestDb) : Option String :=
  manifestTableNames.find? (fun t => (tablesOf db).contains t)

/-- The failure modes of get_file_paths: the missing-file error names the
attempted path (script.py line 62) and the schema error carries every table
actually present (script.py lines 79-81; the code re-wraps this exception on
line 95 but the message keeps the enumeration). -/
inductive ManifestError where
  | notFound (path : String)
  | schemaError (tables : List String)
deriving DecidableEq

/-- The dictionary comprehension of get_file_paths (script.py lines 84-88):
HomeDomain rows with a truthy relative path, keyed by relative path, later
rows overwriting earlier ones. -/
def manifest_dict (rows : List FileRow) : String → Option String :=
  (rows.filter (fun r => r.domain == "HomeDomain")).foldl
    (fun d r =>
      match r.relativePath with
      | none => d
      | some rp => if rp = "" then d else fun q => if q = rp then some r.fileID else d q)
    (fun _ => none)

/-- Embedding of script.py get_file_paths (lines 60-95): the filesystem
state is passed as an optional manifest database (none models an absent
index file). -/
def get_file_paths (manifest_path : String) (fs : Option ManifestDb) :
    Except ManifestError (String → Option String) :=
  match fs with
  | none => .error (.notFound manifest_path)
  | some db =>
    match found_table db with
    | some t => .ok (manifest_dict ((db.lookup t).getD []))
    | none => .error (.schemaError (tablesOf db))

/-- Concrete contact row used by witnesses: raw phone value 15551234567. -/
def janeRow : ContactRow := ⟨1, some "Jane", some "Doe", "15551234567", none⟩

/-- Concrete ordinary message from the handle alice with guid g1. -/
def msgA : MessageRow := ⟨1, some "g1", none, 2, false, none, none, 100, some "alice"⟩

/-- Concrete heart reaction from the handle bob targeting guid g1. -/
def msgB : MessageRow := ⟨2, some "g2", none, 3, false, some "g1", some 2000, 200, some "bob"⟩

/-- Concrete laugh reaction from self targeting a guid that no message in
the chat carries. -/
def msgR : MessageRow := ⟨3, some "g3", none, 4, true, some "zzz", some 2003, 300, none⟩

/-- Concrete message carrying the reaction-type code 0. -/
def msgZero : MessageRow := ⟨4, some "g4", none, 5, false, some "g1", some 0, 400, some "carol"⟩

/-- First concrete conversation record for the merge witness. -/
def mergeConvA : Conv :=
  ⟨"Jane None Doe", 3, 2, "March 01, 2020", "May 05, 2021", 1, 1, 0, 10, none⟩

/-- Second concrete conversation record for the merge witness. -/
def mergeConvB : Conv :=
  ⟨"Jane Doe", 1, 5, "April 01, 2019", "June 06, 2021", 2, 0, 2, 5, none⟩

/-- Concrete contact store for the end-to-end compiler witness. -/
def c8Contacts : String → Option ContactInfo :=
  get_contacts [⟨1, some "Jane", some "Doe", "5551234567", none⟩]

/-- Concrete aggregate row: 3 sent and 2 received messages spanning exactly
four days in Apple-epoch nanoseconds. -/
def c8Row : ConvRow := ⟨"5551234567", 3, 2, 0, 345600000000000⟩

/-- Empty image statistics for the compiler witness. -/
def c8Imgs : String → Option ImgStats := fun _ => none

/-- A fixed date formatter for the compiler witness. -/
def c8Fmt : Option Int → String := fun _ => "N/A"

/-- Concrete manifest database with no recognised table. -/
def sampleManifest : ManifestDb := [("Meta", []), ("Properties", [])]

/-- bumpCount leaves every tapbacks-sent counter unchanged. -/
theorem bumpCount_sent (p0 : String) (st : String → PStats) (p : String) (t : Int) :
    ((bumpCount p0 st) p).tapbacks_sent t = (st p).tapbacks_sent t := by
  unfold bumpCount
  by_cases h : p = p0 <;> simp [h]

/-- bumpCount leaves every tapbacks-received counter unchanged. -/
theorem bumpCount_recv (p0 : String) (st : String → PStats) (p : String) (t : Int) :
    ((bumpCount p0 st) p).tapbacks_received t = (st p).tapbacks_received t := by
  unfold bumpCount
  by_cases h : p = p0 <;> simp [h]

/-- The effect of bumpSent on a tapbacks-sent counter. -/
theorem bumpSent_sent (p0 : String) (t0 : Int) (st : String → PStats) (p : String) (t : Int) :
    ((bumpSent p0 t0 st) p).tapbacks_sent t
      = (st p).tapbacks_sent t + (if p = p0 ∧ t = t0 then 1 else 0) := by
  unfold bumpSent
  by_cases hp : p = p0 <;> by_cases ht : t = t0 <;> simp [hp, ht]

/-- bumpSent leaves every tapbacks-received counter unchanged. -/
theorem bumpSent_recv (p0 : String) (t0 : Int) (st : String → PStats) (p : String) (t : Int) :
    ((bumpSent p0 t0 st) p).tapbacks_received t = (st p).tapbacks_received t := by
  unfold bumpSent
  by_cases hp : p = p0 <;> simp [hp]

/-- bumpSent leaves every message counter unchanged. -/
theorem bumpSent_count (p0 : String) (t0 : Int) (st : String → PStats) (p : String) :
    ((bumpSent p0 t0 st) p).message_count = (st p).message_count := by
  unfold bumpSent
  by_cases hp : p = p0 <;> simp [hp]

/-- The effect of bumpRecv on a tapbacks-received counter. -/
theorem bumpRecv_recv (p0 : String) (t0 : Int) (st : String → PStats) (p : String) (t : Int) :
    ((bumpRecv p0 t0 st) p).tapbacks_received t
      = (st p).tapbacks_received t + (if p = p0 ∧ t = t0 then 1 else 0) := by
  unfold bumpRecv
  by_cases hp : p = p0 <;> by_cases ht : t = t0 <;> simp [hp, ht]

/-- bumpRecv leaves every tapbacks-sent counter unchanged. -/
theorem bumpRecv_sent (p0 : String) (t0 : Int) (st : String → PStats) (p : String) (t : Int) :
    ((bumpRecv p0 t0 st) p).tapbacks_sent t = (st p).tapbacks_sent t := by
  unfold bumpRecv
  by_cases hp : p = p0 <;> simp [hp]

/-- bumpRecv leaves every message counter unchanged. -/
theorem bumpRecv_count (p0 : String) (t0 : Int) (st : String → PStats) (p : String) :
    ((bumpRecv p0 t0 st) p).message_count = (st p).message_count := by
  unfold bumpRecv
  by_cases hp : p = p0 <;> simp [hp]

/-- One pass-2 step adds exactly the sent-delta of the message. -/
theorem pass2Step_sent (mts : Option String → Option String) (st : String → PStats)
    (m : MessageRow) (p : String) (t : Int) :
    ((pass2Step mts st m) p).tapbacks_sent t = (st p).tapbacks_sent t + sentD m p t := by
  rcases h : m.associated_message_type with _ | ty
  · simp [pass2Step, sentD, h]
  · by_cases h0 : ty = 0
    · simp [pass2Step, sentD, h, h0]
    · simp only [pass2Step, sentD, h, h0, if_false]
      rcases hl : mts (clean_guid m.associated_message_guid) with _ | orig
      · simp [bumpSent_sent]
      · simp [bumpRecv_sent, bumpSent_sent]

/-- One pass-2 step adds exactly the received-delta of the message. -/
theorem pass2Step_recv (mts : Option String → Option String) (st : String → PStats)
    (m : MessageRow) (p : String) (t : Int) :
    ((pass2Step mts st m) p).tapbacks_received t
      = (st p).tapbacks_received t + recvD mts m p t := by
  rcases h : m.associated_message_type with _ | ty
  · simp [pass2Step, recvD, h]
  · by_cases h0 : ty = 0
    · simp [pass2Step, recvD, h, h0]
    · simp only [pass2Step, recvD, h, h0, if_false]
      rcases hl : mts (clean_guid m.associated_message_guid) with _ | orig
      · simp [bumpSent_recv]
      · simp [bumpRecv_recv, bumpSent_recv]

/-- Pass 2 never touches the message counters. -/
theorem pass2Step_count (mts : Option String → Option String) (st : String → PStats)
    (m : MessageRow) (p : String) :
    ((pass2Step mts st m) p).message_count = (st p).message_count := by
  rcases h : m.associated_message_type with _ | ty
  · simp [pass2Step, h]
  · by_cases h0 : ty = 0
    · simp [pass2Step, h, h0]
    · simp only [pass2Step, h, h0, if_false]
      rcases hl : mts (clean_guid m.associated_message_guid) with _ | orig
      · simp [bumpSent_count]
      · simp [bumpRecv_count, bumpSent_count]

/-- The tapbacks-sent counters after pass 2 are the initial values plus the
sum of the per-message sent-deltas. -/
theorem pass2_sent_eq (mts : Option String → Option String) (st : String → PStats)
    (l : List MessageRow) (p : String) (t : Int) :
    ((pass2 mts st l) p).tapbacks_sent t
      = (st p).tapbacks_sent t + (l.map (fun m => sentD m p t)).sum := by
  induction l generalizing st with
  | nil => simp [pass2]
  | cons m rest ih =>
    rw [show pass2 mts st (m :: rest) = pass2 mts (pass2Step mts st m) rest from rfl,
      ih, pass2Step_sent]
    simp
    omega

/-- The tapbacks-received counters after pass 2 are the initial values plus
the sum of the per-message received-deltas. -/
theorem pass2_recv_eq (mts : Option String → Option String) (st : String → PStats)
    (l : List MessageRow) (p : String) (t : Int) :
    ((pass2 mts st l) p).tapbacks_received t
      = (st p).tapbacks_received t + (l.map (fun m => recvD mts m p t)).sum := by
  induction l generalizing st with
  | nil => simp [pass2]
  | cons m rest ih =>
    rw [show pass2 mts st (m :: rest) = pass2 mts (pass2Step mts st m) rest from rfl,
      ih, pass2Step_recv]
    simp
    omega

/-- Pass 2 leaves the message counters of the initial state unchanged. -/
theorem pass2_count_eq (mts : Option String → Option String) (st : String → PStats)
    (l : List MessageRow) (p : String) :
    ((pass2 mts st l) p).message_count = (st p).message_count := by
  induction l generalizing st with
  | nil => simp [pass2]
  | cons m rest ih =>
    rw [show pass2 mts st (m :: rest) = pass2 mts (pass2Step mts st m) rest from rfl,
      ih, pass2Step_count]

/-- With the pass-1 map fixed, the outcome of pass 2 does not depend on the
order in which the messages are processed. -/
theorem pass2_perm (mts : Option String → Option String) (st : String → PStats)
    {l1 l2 : List MessageRow} (h : l1.Perm l2) :
    pass2 mts st l1 = pass2 mts st l2 := by
  funext p
  apply PStats.ext
  · rw [pass2_count_eq, pass2_count_eq]
  · funext t
    rw [pass2_sent_eq, pass2_sent_eq, (h.map (fun m => sentD m p t)).sum_eq]
  · funext t
    rw [pass2_recv_eq, pass2_recv_eq, (h.map (fun m => recvD mts m p t)).sum_eq]

/-- Pass 1 never touches the tapbacks-sent counters. -/
theorem foldl_pass1_sent (msgs : List MessageRow)
    (acc : (String → PStats) × (Option String → Option String)) (p : String) (t : Int) :
    (((msgs.foldl pass1Step acc).1) p).tapbacks_sent t = ((acc.1) p).tapbacks_sent t := by
  induction msgs generalizing acc with
  | nil => rfl
  | cons m rest ih =>
    rw [List.foldl_cons, ih]
    exact bumpCount_sent (senderOf m) acc.1 p t

/-- Pass 1 never touches the tapbacks-received counters. -/
theorem foldl_pass1_recv (msgs : List MessageRow)
    (acc : (String → PStats) × (Option String → Option String)) (p : String) (t : Int) :
    (((msgs.foldl pass1Step acc).1) p).tapbacks_received t = ((acc.1) p).tapbacks_received t := by
  induction msgs generalizing acc with
  | nil => rfl
  | cons m rest ih =>
    rw [List.foldl_cons, ih]
    exact bumpCount_recv (senderOf m) acc.1 p t

/-- After pass 1 every tapbacks-sent counter is still zero. -/
theorem pass1_sent_zero (msgs : List MessageRow) (p : String) (t : Int) :
    (((pass1 msgs).1) p).tapbacks_sent t = 0 :=
  (foldl_pass1_sent msgs _ p t).trans rfl

/-- After pass 1 every tapbacks-received counter is still zero. -/
theorem pass1_recv_zero (msgs : List MessageRow) (p : String) (t : Int) :
    (((pass1 msgs).1) p).tapbacks_received t = 0 :=
  (foldl_pass1_recv msgs _ p t).trans rfl

/-- A get_contacts iteration changes the dictionary at most at the full
contact key of the row. -/
theorem getContactsStep_ne (dict : String → Option ContactInfo) (row : ContactRow)
    (k : String) (hk : k ≠ contactKey row.value) :
    getContactsStep dict row k = dict k := by
  simp only [getContactsStep]
  cases hdk : dict (contactKey row.value) <;> simp only [hdk]
  · simp [hk]
  · split
    · simp [hk]
    · rfl

/-- Every key bound by the get_contacts fold is either the full contact key
of one of the rows or was already bound in the starting dictionary. -/
theorem get_contacts_mem_aux (rows : List ContactRow) (d0 : String → Option ContactInfo)
    (k : String) (c : ContactInfo) (h : (rows.foldl getContactsStep d0) k = some c) :
    k ∈ rows.map (fun row => contactKey row.value) ∨ d0 k ≠ none := by
  induction rows generalizing d0 with
  | nil =>
    right
    rw [List.foldl_nil] at h
    simp [h]
  | cons r rest ih =>
    rw [List.foldl_cons] at h
    rcases ih (getContactsStep d0 r) h with h1 | h2
    · left
      rw [List.map_cons]
      exact List.mem_cons_of_mem _ h1
    · by_cases hk : k = contactKey r.value
      · left
        rw [List.map_cons]
        exact hk ▸ List.mem_cons_self _ _
      · right
        rw [getContactsStep_ne d0 r k hk] at h2
        exact h2

/-- Unfolding equation for normalize_phone_number on a present input. -/
theorem normalize_some (p : String) :
    normalize_phone_number (some p)
      = if (p.data.filter Char.isDigit).length = 11
            ∧ (p.data.filter Char.isDigit).head? = some '1'
        then String.mk ((p.data.filter Char.isDigit).drop 1)
        else String.mk (p.data.filter Char.isDigit) := rfl

/-- C3: identifier normalization is idempotent on strings — feeding the
output of normalize_phone_number back into it is a no-op, because the output
consists of digit characters only and the 11-digit leading-1 rule can fire at
most once (its output has 10 digits). -/
theorem normalize_idempotent (s : String) :
    normalize_phone_number (some (normalize_phone_number (some s)))
      = normalize_phone_number (some s) := by
  have hall : ∀ c ∈ s.data.filter Char.isDigit, Char.isDigit c = true :=
    fun c hc => (List.mem_filter.mp hc).2
  rw [normalize_some s]
  by_cases h : (s.data.filter Char.isDigit).length = 11
      ∧ (s.data.filter Char.isDigit).head? = some '1'
  · rw [if_pos h, normalize_some]
    have hf : ((String.mk ((s.data.filter Char.isDigit).drop 1)).data.filter Char.isDigit)
        = (s.data.filter Char.isDigit).drop 1 :=
      List.filter_eq_self.mpr (fun c hc => hall c (List.mem_of_mem_drop hc))
    have hlen : ((s.data.filter Char.isDigit).drop 1).length = 10 := by
      rw [List.length_drop, h.1]
    rw [hf, if_neg]
    intro hcon
    exact absurd (hlen ▸ hcon.1) (by decide)
  · rw [if_neg h, normalize_some]
    have hf : ((String.mk (s.data.filter Char.isDigit)).data.filter Char.isDigit)
        = s.data.filter Char.isDigit := List.filter_eq_self.mpr hall
    rw [hf, if_neg h]

/-- C4 counterexample: normalize_phone_number, the normalizer named by the
claim, does not lowercase inputs containing an at sign — it strips them to
their digit characters, so the claimed example fails. -/
theorem normalize_email_counterexample :
    normalize_phone_number (some "User@Example.COM") = ""
    ∧ normalize_phone_number (some "User@Example.COM") ≠ "user@example.com" := by
  decide

/-- C4 amended: normalize_phone_number maps a null input to Unknown and any
string to its digit characters with the leading digit dropped exactly when
the digit string is 11 digits long and starts with 1; the lowercase-email
rule lives only in the contact-registration key (get_contacts), where an
input containing an at sign is lowercased and any other input goes through
normalize_phone_number. -/
theorem normalizer_case_analysis_amended :
    normalize_phone_number none = "Unknown"
    ∧ (∀ v : String, v.data.contains '@' = true → contactKey v = pyLower v)
    ∧ (∀ v : String, v.data.contains '@' = false →
        contactKey v = normalize_phone_number (some v))
    ∧ (∀ v : String, normalize_phone_number (some v)
        = if (v.data.filter Char.isDigit).length = 11
              ∧ (v.data.filter Char.isDigit).head? = some '1'
          then String.mk ((v.data.filter Char.isDigit).drop 1)
          else String.mk (v.data.filter Char.isDigit))
    ∧ contactKey "User@Example.COM" = "user@example.com"
    ∧ normalize_phone_number (some "+1 (555) 123-4567") = "5551234567"
    ∧ normalize_phone_number (some "555-123-4567") = "5551234567" := by
  refine ⟨rfl, ?_, ?_, fun v => rfl, by decide, by decide, by decide⟩
  · intro v hv
    simp only [contactKey]
    rw [if_pos hv]
  · intro v hv
    simp only [contactKey]
    rw [if_neg (fun hc => by rw [hv] at hc; exact Bool.noConfusion hc)]

/-- C4 witness: the two case rules of the amended claim at concrete
inputs. -/
theorem normalizer_case_analysis_instance :
    contactKey "Ab@C" = pyLower "Ab@C"
    ∧ contactKey "12-3" = normalize_phone_number (some "12-3") :=
  ⟨normalizer_case_analysis_amended.2.1 "Ab@C" (by decide),
   normalizer_case_analysis_amended.2.2.1 "12-3" (by decide)⟩

/-- C7: the cleaning used as the grouping key removes exactly the
whitespace-delimited tokens equal, case-insensitively, to the word none, and
yields the literal Unknown when every token is removed; the claimed concrete
examples hold. -/
theorem clean_name_spec (name : String) :
    cleanNameApp name
      = (if ((pySplit name).filter (fun p => pyLower p ≠ "none")).isEmpty
         then "Unknown" else clean_contact_name name)
    ∧ cleanNameApp "John None Smith" = "John Smith"
    ∧ cleanNameApp "None None" = "Unknown" :=
  ⟨rfl, by decide, by decide⟩

/-- C9: with the manifest index absent, resolution fails with a not-found
error carrying the attempted path; otherwise the four table names are probed
in the fixed order Files, files, File, file with the first present name
winning, and when none is present resolution fails with a schema error
carrying every table actually present in the index. -/
theorem manifest_resolver_errors (path : String) (db : ManifestDb) :
    get_file_paths path none = Except.error (ManifestError.notFound path)
    ∧ found_table db =
        (if "Files" ∈ tablesOf db then some "Files"
         else if "files" ∈ tablesOf db then some "files"
         else if "File" ∈ tablesOf db then some "File"
         else if "file" ∈ tablesOf db then some "file"
         else none)
    ∧ (found_table db = none →
        get_file_paths path (some db)
          = Except.error (ManifestError.schemaError (tablesOf db))) := by
  refine ⟨rfl, ?_, ?_⟩
  · simp [found_table, manifestTableNames, List.find?]
    split_ifs <;> simp_all
  · intro h
    simp [get_file_paths, h]

/-- C9 witness: a present index whose only tables are Meta and Properties
produces the schema error enumerating exactly those tables, and an absent
index produces the not-found error naming the path. -/
theorem manifest_resolver_errors_instance :
    get_file_paths "backup/Manifest.db" (some sampleManifest)
        = Except.error (ManifestError.schemaError (tablesOf sampleManifest))
    ∧ get_file_paths "backup/Manifest.db" none
        = Except.error (ManifestError.notFound "backup/Manifest.db") :=
  ⟨(manifest_resolver_errors "backup/Manifest.db" sampleManifest).2.2 (by decide),
   (manifest_resolver_errors "backup/Manifest.db" sampleManifest).1⟩

/-- C10: a message whose reaction-type code is exactly 0 is treated as an
ordinary message — the pass-2 step leaves the entire statistics state
untouched (no sent or received counter changes, no attribution) while pass 1
still counts it; only a nonzero code increments the tapbacks-sent counter of
its sender, even though 0 carries the defined label No Tapback. -/
theorem zero_tapback_code_ordinary (mts : Option String → Option String)
    (st : String → PStats) (m : MessageRow) :
    (m.associated_message_type = some 0 →
      pass2Step mts st m = st
      ∧ ((pass1 [m]).1 (senderOf m)).message_count = 1)
    ∧ (∀ t : Int, m.associated_message_type = some t → t ≠ 0 →
        ((pass2Step mts st m) (senderOf m)).tapbacks_sent t
          = (st (senderOf m)).tapbacks_sent t + 1)
    ∧ List.lookup 0 TAPBACK_MAPPING = some "No Tapback" := by
  refine ⟨?_, ?_, by decide⟩
  · intro h
    constructor
    · simp [pass2Step, h]
    · simp [pass1, pass1Step, bumpCount, initStats]
  · intro t hT h0
    rw [pass2Step_sent]
    simp [sentD, hT, h0]

/-- C10 witness: the concrete message carrying reaction-type code 0 changes
nothing in pass 2 and is counted as an ordinary message in pass 1. -/
theorem zero_tapback_code_instance :
    pass2Step (fun _ => none) initStats msgZero = initStats
    ∧ ((pass1 [msgZero]).1 (senderOf msgZero)).message_count = 1 :=
  (zero_tapback_code_ordinary (fun _ => none) initStats msgZero).1 rfl

/-- C1: for an ordinary message A (sender X, guid g1) and a heart reaction B
(sender Y, code 2000, associated guid g1) with distinct guids,
analyze_single_group_chat reports exactly one heart received by X and one
heart sent by Y, in whichever order the two messages arrive; and with the
pass-1 guid map completed over the whole list, pass 2 yields the same state
on every reordering of the messages.  Code 2000 is the heart label of
TAPBACK_MAPPING. -/
theorem tapback_attribution_two_message
    (A B : MessageRow) (X Y : String)
    (hAX : senderOf A = X) (hBY : senderOf B = Y)
    (hAg : A.guid = some "g1")
    (hA : A.associated_message_type = none ∨ A.associated_message_type = some 0)
    (hBt : B.associated_message_type = some 2000)
    (hBa : B.associated_message_guid = some "g1")
    (hBg : clean_guid B.guid ≠ some "g1") :
    ((analyzeStats [A, B] X).tapbacks_received 2000 = 1
      ∧ (analyzeStats [A, B] Y).tapbacks_sent 2000 = 1
      ∧ (analyzeStats [B, A] X).tapbacks_received 2000 = 1
      ∧ (analyzeStats [B, A] Y).tapbacks_sent 2000 = 1)
    ∧ (∀ (mts : Option String → Option String) (st : String → PStats)
        (l1 l2 : List MessageRow), l1.Perm l2 → pass2 mts st l1 = pass2 mts st l2)
    ∧ List.lookup 2000 TAPBACK_MAPPING = some "❤️ Heart" := by
  have hcgA : clean_guid A.guid = some "g1" := by rw [hAg]; decide
  have hcgB : clean_guid B.associated_message_guid = some "g1" := by rw [hBa]; decide
  have hmts1 : (pass1 [A, B]).2 (some "g1") = some X := by
    show insertGuid (insertGuid (fun _ => none) (clean_guid A.guid) (senderOf A))
        (clean_guid B.guid) (senderOf B) (some "g1") = some X
    unfold insertGuid
    rw [if_neg (fun hh => hBg hh.symm), if_pos hcgA.symm, hAX]
  have hmts2 : (pass1 [B, A]).2 (some "g1") = some X := by
    show insertGuid (insertGuid (fun _ => none) (clean_guid B.guid) (senderOf B))
        (clean_guid A.guid) (senderOf A) (some "g1") = some X
    unfold insertGuid
    rw [if_pos hcgA.symm, hAX]
  have hsA : ∀ p t, sentD A p t = 0 := by
    intro p t
    rcases hA with h | h <;> simp [sentD, h]
  have hrA : ∀ mts p t, recvD mts A p t = 0 := by
    intro mts p t
    rcases hA with h | h <;> simp [recvD, h]
  have hsB : sentD B Y 2000 = 1 := by
    simp [sentD, hBt, hBY]
  have hrB1 : recvD (pass1 [A, B]).2 B X 2000 = 1 := by
    simp [recvD, hBt, hcgB, hmts1]
  have hrB2 : recvD (pass1 [B, A]).2 B X 2000 = 1 := by
    simp [recvD, hBt, hcgB, hmts2]
  have m1 : (analyzeStats [A, B] X).tapbacks_received 2000 = 1 := by
    simp only [analyzeStats]
    rw [pass2_recv_eq, pass1_recv_zero]
    simp [hrA, hrB1]
  have m2 : (analyzeStats [A, B] Y).tapbacks_sent 2000 = 1 := by
    simp only [analyzeStats]
    rw [pass2_sent_eq, pass1_sent_zero]
    simp [hsA, hsB]
  have m3 : (analyzeStats [B, A] X).tapbacks_received 2000 = 1 := by
    simp only [analyzeStats]
    rw [pass2_recv_eq, pass1_recv_zero]
    simp [hrA, hrB2]
  have m4 : (analyzeStats [B, A] Y).tapbacks_sent 2000 = 1 := by
    simp only [analyzeStats]
    rw [pass2_sent_eq, pass1_sent_zero]
    simp [hsA, hsB]
  exact ⟨⟨m1, m2, m3, m4⟩, fun mts st l1 l2 h => pass2_perm mts st h, by decide⟩

/-- C1 witness: the concrete two-message chat in both orders. -/
theorem tapback_attribution_instance :
    (analyzeStats [msgA, msgB] "alice").tapbacks_received 2000 = 1
    ∧ (analyzeStats [msgA, msgB] "bob").tapbacks_sent 2000 = 1
    ∧ (analyzeStats [msgB, msgA] "alice").tapbacks_received 2000 = 1
    ∧ (analyzeStats [msgB, msgA] "bob").tapbacks_sent 2000 = 1 :=
  (tapback_attribution_two_message msgA msgB "alice" "bob" (by decide) (by decide)
    (by decide) (Or.inl (by decide)) (by decide) (by decide) (by decide)).1

/-- C2: a reaction whose cleaned associated guid was never registered in
pass 1 changes no tapbacks-received counter of any participant (dropping the
message from pass 2 gives the same received counters) while it still adds
exactly one to its own sender's tapbacks-sent counter for its type; the
embedding is a total function, so no exception is possible. -/
theorem dangling_reaction_skipped (msgs : List MessageRow) (m : MessageRow) (t : Int)
    (p : String) (t2 : Int)
    (hm : m ∈ msgs) (ht : m.associated_message_type = some t) (ht0 : t ≠ 0)
    (hd : (pass1 msgs).2 (clean_guid m.associated_message_guid) = none) :
    (analyzeStats msgs p).tapbacks_received t2
        = (pass2 (pass1 msgs).2 (pass1 msgs).1 (msgs.erase m) p).tapbacks_received t2
    ∧ (analyzeStats msgs (senderOf m)).tapbacks_sent t
        = (pass2 (pass1 msgs).2 (pass1 msgs).1 (msgs.erase m) (senderOf m)).tapbacks_sent t
            + 1 := by
  have hperm : msgs.Perm (m :: msgs.erase m) := List.perm_cons_erase hm
  have hr0 : recvD (pass1 msgs).2 m p t2 = 0 := by
    simp [recvD, ht, ht0, hd]
  have hs1 : sentD m (senderOf m) t = 1 := by
    simp [sentD, ht, ht0]
  constructor
  · simp only [analyzeStats]
    rw [pass2_recv_eq, pass2_recv_eq,
      (hperm.map (fun x => recvD (pass1 msgs).2 x p t2)).sum_eq]
    simp [hr0]
  · simp only [analyzeStats]
    rw [pass2_sent_eq, pass2_sent_eq,
      (hperm.map (fun x => sentD x (senderOf m) t)).sum_eq]
    simp [hs1]
    omega

/-- C2 witness: a concrete chat whose only reaction targets the unseen guid
zzz. -/
theorem dangling_reaction_instance :
    (analyzeStats [msgA, msgR] "alice").tapbacks_received 2003
        = (pass2 (pass1 [msgA, msgR]).2 (pass1 [msgA, msgR]).1
            ([msgA, msgR].erase msgR) "alice").tapbacks_received 2003
    ∧ (analyzeStats [msgA, msgR] (senderOf msgR)).tapbacks_sent 2003
        = (pass2 (pass1 [msgA, msgR]).2 (pass1 [msgA, msgR]).1
            ([msgA, msgR].erase msgR) (senderOf msgR)).tapbacks_sent 2003 + 1 :=
  dangling_reaction_skipped [msgA, msgR] msgR 2003 "alice" 2003 (by decide) (by decide)
    (by decide) (by decide)

/-- C5: when two conversation records resolve to the same cleaned contact
name, the stored record sums every counter (sent, received, images sent,
images received, total image bytes), takes the Python min of the two first
dates and the Python max of the two last dates, and keeps the cleaned name;
no field of either record overwrites the other. -/
theorem merge_by_cleaned_name (c1 c2 : Conv)
    (h : cleanNameApp c2.contact_name = cleanNameApp c1.contact_name) :
    (contactData [c1, c2] (cleanNameApp c1.contact_name)).map Conv.sent_count
        = some (c1.sent_count + c2.sent_count)
    ∧ (contactData [c1, c2] (cleanNameApp c1.contact_name)).map Conv.received_count
        = some (c1.received_count + c2.received_count)
    ∧ (contactData [c1, c2] (cleanNameApp c1.contact_name)).map Conv.images_sent
        = some (c1.images_sent + c2.images_sent)
    ∧ (contactData [c1, c2] (cleanNameApp c1.contact_name)).map Conv.images_received
        = some (c1.images_received + c2.images_received)
    ∧ (contactData [c1, c2] (cleanNameApp c1.contact_name)).map Conv.total_image_size
        = some (c1.total_image_size + c2.total_image_size)
    ∧ (contactData [c1, c2] (cleanNameApp c1.contact_name)).map Conv.first_message_date
        = some (min c1.first_message_date c2.first_message_date)
    ∧ (contactData [c1, c2] (cleanNameApp c1.contact_name)).map Conv.last_message_date
        = some (max c1.last_message_date c2.last_message_date)
    ∧ (contactData [c1, c2] (cleanNameApp c1.contact_name)).map Conv.contact_name
        = some (cleanNameApp c1.contact_name) := by
  have key : contactData [c1, c2] (cleanNameApp c1.contact_name)
      = some (mergeConv { c1 with contact_name := cleanNameApp c1.contact_name } c2) := by
    simp [contactData, contactDataStep, h]
  rw [key]
  exact ⟨rfl, rfl, rfl, rfl, rfl, rfl, rfl, rfl⟩

/-- C5 witness: the claimed concrete merge, 3 sent and 2 received combined
with 1 sent and 5 received under the shared cleaned name Jane Doe. -/
theorem merge_by_cleaned_name_instance :
    (contactData [mergeConvA, mergeConvB] (cleanNameApp mergeConvA.contact_name)).map
        Conv.sent_count = some (mergeConvA.sent_count + mergeConvB.sent_count)
    ∧ (contactData [mergeConvA, mergeConvB] (cleanNameApp mergeConvA.contact_name)).map
        Conv.received_count = some (mergeConvA.received_count + mergeConvB.received_count)
    ∧ (contactData [mergeConvA, mergeConvB] (cleanNameApp mergeConvA.contact_name)).map
        Conv.first_message_date
        = some (min mergeConvA.first_message_date mergeConvB.first_message_date)
    ∧ (contactData [mergeConvA, mergeConvB] (cleanNameApp mergeConvA.contact_name)).map
        Conv.last_message_date
        = some (max mergeConvA.last_message_date mergeConvB.last_message_date) := by
  have h := merge_by_cleaned_name mergeConvA mergeConvB (by decide)
  exact ⟨h.1, h.2.1, h.2.2.2.2.2.1, h.2.2.2.2.2.2.1⟩

/-- C6 counterexample: the contact built from raw 15551234567 is stored only
under the key 5551234567; the message identifier +44 20 5551234567 normalizes
to the 14-digit string 44205551234567 whose last 10 digits are 5551234567,
yet the lookup performed by the pipeline returns nothing — no suffix key is
registered. -/
theorem suffix_matching_counterexample :
    get_contacts [janeRow] "5551234567" = some ⟨"Jane Doe", none⟩
    ∧ normalize_phone_number (some "+44 20 5551234567") = "44205551234567"
    ∧ ("44205551234567" : String).data.drop 4 = ("5551234567" : String).data
    ∧ get_contacts [janeRow] (normalize_phone_number (some "+44 20 5551234567")) = none := by
  decide

/-- C6 amended: the contact resolver registers each contact only under the
full key contactKey of its raw value — no last-10-digit suffix form — so a
message identifier is matched exactly when its own normalized form equals
that full key. -/
theorem contact_keys_full_normalized_only (rows : List ContactRow) (k : String)
    (c : ContactInfo) (h : get_contacts rows k = some c) :
    k ∈ rows.map (fun row => contactKey row.value) :=
  (get_contacts_mem_aux rows (fun _ => none) k c h).resolve_right (by simp)

/-- C6 witness: the one key of the singleton contact store is the full
normalized key of its row. -/
theorem contact_keys_instance :
    "5551234567" ∈ [janeRow].map (fun row => contactKey row.value) :=
  contact_keys_full_normalized_only [janeRow] "5551234567" ⟨"Jane Doe", none⟩ (by decide)

/-- C8: for a row with first timestamp not after the last, the compiled
average equals total messages divided by max 1 (whole days between first and
last, plus one), and the compiler output for a single row is exactly its
compiled record. -/
theorem avg_messages_per_day_spec (contacts : String → Option ContactInfo)
    (image_stats : String → Option ImgStats) (fmt : Option Int → String) (row : ConvRow)
    (h : row.first_message ≤ row.last_message) :
    (conversationEntry contacts image_stats fmt row).avg_messages_per_day
        = ((row.sent_count + row.received_count : ℕ) : ℚ)
            / ((max 1 (days_between row.first_message row.last_message + 1) : ℤ) : ℚ)
    ∧ get_all_conversations [row] contacts image_stats fmt
        = [conversationEntry contacts image_stats fmt row] := by
  constructor
  · have hd : 0 ≤ days_between row.first_message row.last_message :=
      Int.fdiv_nonneg (by omega) (by norm_num [nsPerDay])
    simp only [conversationEntry]
    rw [if_pos (by omega), max_eq_right (by omega)]
  · simp [get_all_conversations]

/-- C8 witness: the end-to-end instance — 3 sent plus 2 received messages
for handle 5551234567 spanning four whole days, a contact store mapping that
number to Jane Doe — compiles to the record with contact name Jane Doe,
sent 3, received 2 and average exactly 1. -/
theorem avg_messages_per_day_instance :
    (conversationEntry c8Contacts c8Imgs c8Fmt c8Row).contact_name = "Jane Doe"
    ∧ (conversationEntry c8Contacts c8Imgs c8Fmt c8Row).sent_count = 3
    ∧ (conversationEntry c8Contacts c8Imgs c8Fmt c8Row).received_count = 2
    ∧ (conversationEntry c8Contacts c8Imgs c8Fmt c8Row).avg_messages_per_day = 1
    ∧ get_all_conversations [c8Row] c8Contacts c8Imgs c8Fmt
        = [conversationEntry c8Contacts c8Imgs c8Fmt c8Row] := by
  have h := avg_messages_per_day_spec c8Contacts c8Imgs c8Fmt c8Row (by decide)
  refine ⟨by decide, by decide, by decide, ?_, h.2⟩
  rw [h.1]
  have hdays : days_between c8Row.first_message c8Row.last_message = 4 := by decide
  rw [hdays]
  norm_num [c8Row]
